import Mathlib

/-!
Verification of the geolocation filtering core of cache_quest
(src/hooks/useGeolocation.ts), shallowly embedded in Lean.

Numeric fields of readings (degrees, meters, meters per second) are
modelled as rational numbers.  The haversine distance used by the
movement threshold gate is transcendental (sine, cosine, arctangent
over the reals), so the gate pipeline is parametrised by the distance
function `dist` it consults, at exactly the call site where the source
calls `haversine`; every theorem about the pipeline holds for an
arbitrary `dist`, and concrete evaluations instantiate it.

The mutable refs of the hook (`smoothedRef`, `lastPushedRef`,
`stalenessTimerRef`, `watchIdRef`, `stableCountRef`) together with the
React state become explicit fields of `HookState`.  The staleness
timer is modelled as an optional pending delay in milliseconds plus a
generation counter that counts rearms, so that rearming is observable.
The surrounding effect (permission probe, watch subscription,
permission change listener, cleanup) becomes an event-driven
transition function `controllerStep` over `ControllerState`; the
fields `queryDone` (a permission query promise resolves at most once),
`cancelled` (the cleanup flag of the effect) and `resultState` (a
mirror of the browser permission status object observed by the
listener) model the asynchronous environment of the source.
-/

/-- Exposed permission lifecycle values (type `PermissionState` in the source). -/
inductive PermissionState where
  | prompt
  | granted
  | denied
  | unsupported
deriving DecidableEq

/-- Browser-side permission status values as reported by the Permissions API
(the DOM `PermissionState`): it has no `unsupported` member. -/
inductive BrowserPerm where
  | prompt
  | granted
  | denied
deriving DecidableEq

/-- Cast of a browser permission value into the exposed enumeration, the
`result.state as PermissionState` cast of the source. -/
def BrowserPerm.toPermissionState : BrowserPerm → PermissionState
  | .prompt => PermissionState.prompt
  | .granted => PermissionState.granted
  | .denied => PermissionState.denied

/-- Interface `GeoPosition` of the source: a smoothed or raw fix. -/
structure GeoPosition where
  latitude : ℚ
  longitude : ℚ
  accuracy : ℚ
deriving DecidableEq

/-- The fields of `GeolocationCoordinates` the pipeline reads: a raw reading
with an optional reported speed (`null` on some devices). -/
structure RawReading where
  latitude : ℚ
  longitude : ℚ
  accuracy : ℚ
  speed : Option ℚ
deriving DecidableEq

/-- The React state of the hook (`Omit<GeolocationState, 'recalibrate'>` in
the source): the public surface exposed to consumers. -/
structure PublicState where
  latitude : Option ℚ
  longitude : Option ℚ
  accuracy : Option ℚ
  error : Option String
  loading : Bool
  permissionState : PermissionState
  stale : Bool
deriving DecidableEq

/-- EMA smoothing factor (`EMA_ALPHA` in the source). -/
def EMA_ALPHA : ℚ := 15 / 100

/-- Accuracy ceiling in meters (`MAX_ACCEPTABLE_ACCURACY`). -/
def MAX_ACCEPTABLE_ACCURACY : ℚ := 100

/-- Movement threshold in meters (`MIN_MOVEMENT_THRESHOLD`). -/
def MIN_MOVEMENT_THRESHOLD : ℚ := 5

/-- Staleness window in milliseconds (`STALENESS_TIMEOUT_MS`). -/
def STALENESS_TIMEOUT_MS : ℕ := 30000

/-- Consecutive stationary readings before snapping (`SNAP_AFTER_STABLE_COUNT`). -/
def SNAP_AFTER_STABLE_COUNT : ℕ := 3

/-- Reported speed below which a reading counts as stationary; the source
inlines the literal `0.3` in `handlePosition`. -/
def STATIONARY_SPEED_LIMIT : ℚ := 3 / 10

/-- Error message shown on a permission denial. -/
def deniedMessage : String :=
  "Location access denied. Please enable location in your browser settings to play."

/-- Error message shown on a transient error while no position exists yet. -/
def acquiringMessage : String :=
  "Acquiring location… Please ensure GPS is enabled."

/-- Error message installed by the staleness watchdog when it fires. -/
def stalenessMessage : String :=
  "Location signal lost. Move to an open area."

/-- Error message shown when the permission change listener sees a denial. -/
def revokedMessage : String :=
  "Location access revoked."

/-- Initial React state of the hook (the `useState` initialiser). -/
def initialPublicState : PublicState :=
  { latitude := none
    longitude := none
    accuracy := none
    error := none
    loading := true
    permissionState := PermissionState.prompt
    stale := false }

/-- Function `smooth` of the source: EMA combination of a new reading with
the previous smoothed position, or the raw reading when none exists. -/
def smooth (prev : Option GeoPosition) (raw : GeoPosition) (alpha : ℚ) : GeoPosition :=
  match prev with
  | none => raw
  | some p =>
      { latitude := alpha * raw.latitude + (1 - alpha) * p.latitude
        longitude := alpha * raw.longitude + (1 - alpha) * p.longitude
        accuracy := alpha * raw.accuracy + (1 - alpha) * p.accuracy }

/-- Projection of a reading to the three fields kept by the pipeline (the
`const raw : GeoPosition` literal inside `handlePosition`). -/
def RawReading.toGeoPosition (pos : RawReading) : GeoPosition :=
  { latitude := pos.latitude, longitude := pos.longitude, accuracy := pos.accuracy }

/-- The internal state of one hook instance: the React state plus the
mutable refs of the source, with the staleness timer made explicit. -/
structure HookState where
  pub : PublicState
  smoothed : Option GeoPosition
  lastPushed : Option GeoPosition
  timer : Option ℕ
  timerGen : ℕ
  watchId : Option ℕ
  stableCount : ℕ
deriving DecidableEq

/-- Hook state before any callback ran: all refs empty, count zero. -/
def initialHook : HookState :=
  { pub := initialPublicState
    smoothed := none
    lastPushed := none
    timer := none
    timerGen := 0
    watchId := none
    stableCount := 0 }

/-- The flag-clearing `setState` updater used by the snap branch and the
below-threshold branch of `handlePosition`: it resets error, loading,
permission and staleness only when one of them is dirty, otherwise it
returns the previous state unchanged. -/
def clearFlags (p : PublicState) : PublicState :=
  if p.loading = true ∨ p.error ≠ none ∨ p.stale = true ∨
      p.permissionState ≠ PermissionState.granted then
    { p with error := none, loading := false,
             permissionState := PermissionState.granted, stale := false }
  else
    p

/-- The full `setState` performed when a smoothed position is published. -/
def pushState (sm : GeoPosition) : PublicState :=
  { latitude := some sm.latitude
    longitude := some sm.longitude
    accuracy := some sm.accuracy
    error := none
    loading := false
    permissionState := PermissionState.granted
    stale := false }

/-- The `setState` performed by the staleness timer callback when it fires. -/
def watchdogFire (p : PublicState) : PublicState :=
  { p with stale := true, error := some stalenessMessage }

/-- The stationary test of the speed gate: the source condition
`pos.speed !== null && pos.speed >= 0 && pos.speed < 0.3 && smoothedRef.current`. -/
def isStationary (pos : RawReading) (s : HookState) : Bool :=
  match pos.speed with
  | none => false
  | some v => decide (0 ≤ v) && decide (v < STATIONARY_SPEED_LIMIT) && s.smoothed.isSome

/-- The publish decision of the movement threshold gate: push when no
position was pushed yet, or when the distance from the last pushed position
to the new smoothed position reaches the threshold. -/
def shouldPushB (dist : ℚ → ℚ → ℚ → ℚ → ℚ)
    (prev : Option GeoPosition) (sm : GeoPosition) : Bool :=
  match prev with
  | none => true
  | some p =>
      decide (MIN_MOVEMENT_THRESHOLD ≤ dist p.latitude p.longitude sm.latitude sm.longitude)

/-- The tail of `handlePosition` past the accuracy and snap gates: smooth the
reading, store the result, rearm the staleness timer, then either publish or
merely clear flags depending on the movement threshold. -/
def handleBody (dist : ℚ → ℚ → ℚ → ℚ → ℚ) (s : HookState) (pos : RawReading) : HookState :=
  let sm := smooth s.smoothed pos.toGeoPosition EMA_ALPHA
  if shouldPushB dist s.lastPushed sm = true then
    { s with smoothed := some sm
             timer := some STALENESS_TIMEOUT_MS
             timerGen := s.timerGen + 1
             lastPushed := some sm
             pub := pushState sm }
  else
    { s with smoothed := some sm
             timer := some STALENESS_TIMEOUT_MS
             timerGen := s.timerGen + 1
             pub := clearFlags s.pub }

/-- Function `handlePosition` of the source.  Gate order: discard when the
accuracy exceeds the ceiling and a smoothed position exists; when the
reading is stationary, bump the stable count and, once the count reaches
the snap threshold, only rearm the timer and clear flags; otherwise reset
or keep the count and run the smoothing and publishing body. -/
def handlePosition (dist : ℚ → ℚ → ℚ → ℚ → ℚ) (s : HookState) (pos : RawReading) : HookState :=
  if MAX_ACCEPTABLE_ACCURACY < pos.accuracy ∧ s.smoothed.isSome = true then
    s
  else if isStationary pos s = true ∧ SNAP_AFTER_STABLE_COUNT ≤ s.stableCount + 1 then
    { s with stableCount := s.stableCount + 1
             timer := some STALENESS_TIMEOUT_MS
             timerGen := s.timerGen + 1
             pub := clearFlags s.pub }
  else if isStationary pos s = true then
    handleBody dist { s with stableCount := s.stableCount + 1 } pos
  else
    handleBody dist { s with stableCount := 0 } pos

/-- Error classifications delivered to the error callback
(`GeolocationPositionError.code`). -/
inductive GeoErrorCode where
  | permissionDenied
  | positionUnavailable
  | timeout
deriving DecidableEq

/-- Function `handleError` of the source: a permission denial records the
denied state and clears the watch; any other error leaves permission and
subscription alone and surfaces a message only while no position exists. -/
def handleError (s : HookState) (code : GeoErrorCode) : HookState :=
  match code with
  | .permissionDenied =>
      { s with
        pub := { s.pub with
                 error := some deniedMessage
                 loading := false
                 permissionState := PermissionState.denied }
        watchId := none }
  | _ =>
      { s with
        pub := { s.pub with
                 error := if s.pub.latitude = none then some acquiringMessage else none
                 loading := s.pub.latitude.isNone } }

/-- State of the whole effect: the hook state plus the bookkeeping of the
asynchronous environment of the effect body. -/
structure ControllerState where
  hook : HookState
  cancelled : Bool
  queryDone : Bool
  listenerRegistered : Bool
  resultState : Option BrowserPerm
  nextWatchId : ℕ
deriving DecidableEq

/-- Controller state right after the effect body ran, before any callback. -/
def initialController : ControllerState :=
  { hook := initialHook
    cancelled := false
    queryDone := false
    listenerRegistered := false
    resultState := none
    nextWatchId := 0 }

/-- The `startWatching` closure of the effect: a no-op when cancelled,
otherwise it registers a fresh watch handle. -/
def startWatching (s : ControllerState) : ControllerState :=
  if s.cancelled = true then s
  else
    { s with hook := { s.hook with watchId := some s.nextWatchId }
             nextWatchId := s.nextWatchId + 1 }

/-- The callback events the effect can receive.  Position and error events
are delivered by the platform only while a watch subscription is active;
the timer fires only while armed; the change event fires only once the
listener was registered; the permission query resolves or fails at most
once.  These delivery conditions are enforced by `controllerStep`. -/
inductive GeoEvent where
  | queryResult (st : BrowserPerm)
  | queryFailed
  | position (pos : RawReading)
  | geoError (code : GeoErrorCode)
  | permissionChange (st : BrowserPerm)
  | timerFire
  | cleanup
deriving DecidableEq

/-- One event-driven transition of the effect, combining the promise
handlers, the watch callbacks, the change listener, the timer callback
and the effect cleanup of the source. -/
def controllerStep (dist : ℚ → ℚ → ℚ → ℚ → ℚ)
    (s : ControllerState) (e : GeoEvent) : ControllerState :=
  match e with
  | .queryResult st =>
      if s.queryDone = true then s
      else if s.cancelled = true then
        { s with queryDone := true, resultState := some st }
      else if st = BrowserPerm.denied then
        { s with queryDone := true
                 resultState := some st
                 hook := { s.hook with
                           pub := { s.hook.pub with
                                    error := some deniedMessage
                                    loading := false
                                    permissionState := PermissionState.denied } } }
      else
        startWatching
          { s with queryDone := true
                   resultState := some st
                   listenerRegistered := true
                   hook := { s.hook with
                             pub := { s.hook.pub with
                                      permissionState := st.toPermissionState } } }
  | .queryFailed =>
      if s.queryDone = true then s
      else if s.cancelled = true then { s with queryDone := true }
      else startWatching { s with queryDone := true }
  | .position pos =>
      if s.hook.watchId.isSome = true then
        { s with hook := handlePosition dist s.hook pos }
      else s
  | .geoError code =>
      if s.hook.watchId.isSome = true then
        { s with hook := handleError s.hook code }
      else s
  | .permissionChange st =>
      if s.listenerRegistered = true then
        if st = BrowserPerm.denied then
          { s with resultState := some st
                   hook := { s.hook with
                             watchId := none
                             pub := { s.hook.pub with
                                      error := some revokedMessage
                                      permissionState := PermissionState.denied } } }
        else if st = BrowserPerm.granted ∧ s.hook.watchId = none then
          startWatching { s with resultState := some st }
        else
          { s with resultState := some st }
      else s
  | .timerFire =>
      if s.hook.timer.isSome = true then
        { s with hook := { s.hook with timer := none, pub := watchdogFire s.hook.pub } }
      else s
  | .cleanup =>
      { s with cancelled := true
               hook := { s.hook with watchId := none, timer := none } }

/-- Controller states reachable from the initial state by any event trace. -/
inductive Reachable (dist : ℚ → ℚ → ℚ → ℚ → ℚ) : ControllerState → Prop where
  | init : Reachable dist initialController
  | next (s : ControllerState) (e : GeoEvent)
      (h : Reachable dist s) : Reachable dist (controllerStep dist s e)

/-- A degenerate distance function used to instantiate the parametric
pipeline on concrete inputs where the publish decision is immaterial or
deliberately below the threshold. -/
def distZero : ℚ → ℚ → ℚ → ℚ → ℚ := fun _ _ _ _ => 0

lemma clearFlags_spec (p : PublicState) :
    (clearFlags p).latitude = p.latitude ∧ (clearFlags p).longitude = p.longitude ∧
    (clearFlags p).accuracy = p.accuracy ∧ (clearFlags p).error = none ∧
    (clearFlags p).loading = false ∧ (clearFlags p).stale = false ∧
    (clearFlags p).permissionState = PermissionState.granted := by
  unfold clearFlags
  split
  · exact ⟨rfl, rfl, rfl, rfl, rfl, rfl, rfl⟩
  · next h =>
    push_neg at h
    obtain ⟨h1, h2, h3, h4⟩ := h
    refine ⟨rfl, rfl, rfl, h2, ?_, ?_, h4⟩
    · simpa using h1
    · simpa using h3

lemma clearFlags_clean (p : PublicState) (he : p.error = none) (hl : p.loading = false)
    (hs : p.stale = false) (hp : p.permissionState = PermissionState.granted) :
    clearFlags p = p := by
  unfold clearFlags
  rw [if_neg]
  simp [he, hl, hs, hp]

lemma smooth_self (p : GeoPosition) (a : ℚ) : smooth (some p) p a = p := by
  unfold smooth
  cases p with
  | mk la lo ac => simp only [GeoPosition.mk.injEq]; refine ⟨by ring, by ring, by ring⟩

lemma handleBody_smoothed (d : ℚ → ℚ → ℚ → ℚ → ℚ) (s : HookState) (pos : RawReading) :
    (handleBody d s pos).smoothed = some (smooth s.smoothed pos.toGeoPosition EMA_ALPHA) := by
  simp only [handleBody]
  split <;> rfl

lemma handleBody_timer (d : ℚ → ℚ → ℚ → ℚ → ℚ) (s : HookState) (pos : RawReading) :
    (handleBody d s pos).timer = some STALENESS_TIMEOUT_MS := by
  simp only [handleBody]
  split <;> rfl

lemma handleBody_timerGen (d : ℚ → ℚ → ℚ → ℚ → ℚ) (s : HookState) (pos : RawReading) :
    (handleBody d s pos).timerGen = s.timerGen + 1 := by
  simp only [handleBody]
  split <;> rfl

lemma handleBody_stableCount (d : ℚ → ℚ → ℚ → ℚ → ℚ) (s : HookState) (pos : RawReading) :
    (handleBody d s pos).stableCount = s.stableCount := by
  simp only [handleBody]
  split <;> rfl

lemma handleBody_watchId (d : ℚ → ℚ → ℚ → ℚ → ℚ) (s : HookState) (pos : RawReading) :
    (handleBody d s pos).watchId = s.watchId := by
  simp only [handleBody]
  split <;> rfl

lemma handleBody_push (d : ℚ → ℚ → ℚ → ℚ → ℚ) (s : HookState) (pos : RawReading)
    (h : shouldPushB d s.lastPushed (smooth s.smoothed pos.toGeoPosition EMA_ALPHA) = true) :
    (handleBody d s pos).pub = pushState (smooth s.smoothed pos.toGeoPosition EMA_ALPHA) ∧
    (handleBody d s pos).lastPushed = some (smooth s.smoothed pos.toGeoPosition EMA_ALPHA) := by
  simp only [handleBody]
  rw [if_pos h]
  exact ⟨rfl, rfl⟩

lemma handleBody_noPush (d : ℚ → ℚ → ℚ → ℚ → ℚ) (s : HookState) (pos : RawReading)
    (h : shouldPushB d s.lastPushed (smooth s.smoothed pos.toGeoPosition EMA_ALPHA) = false) :
    (handleBody d s pos).pub = clearFlags s.pub ∧
    (handleBody d s pos).lastPushed = s.lastPushed := by
  simp only [handleBody]
  rw [if_neg (by simp [h])]
  exact ⟨rfl, rfl⟩

lemma handleBody_perm (d : ℚ → ℚ → ℚ → ℚ → ℚ) (s : HookState) (pos : RawReading) :
    (handleBody d s pos).pub.permissionState = PermissionState.granted := by
  simp only [handleBody]
  split
  · rfl
  · exact (clearFlags_spec s.pub).2.2.2.2.2.2

lemma handlePosition_watchId (d : ℚ → ℚ → ℚ → ℚ → ℚ) (s : HookState) (pos : RawReading) :
    (handlePosition d s pos).watchId = s.watchId := by
  unfold handlePosition
  split
  · rfl
  · split
    · rfl
    · split
      · exact handleBody_watchId d _ pos
      · exact handleBody_watchId d _ pos

lemma handlePosition_perm_or (d : ℚ → ℚ → ℚ → ℚ → ℚ) (s : HookState) (pos : RawReading) :
    (handlePosition d s pos).pub.permissionState = PermissionState.granted ∨
    handlePosition d s pos = s := by
  unfold handlePosition
  split
  · exact Or.inr rfl
  · split
    · exact Or.inl (clearFlags_spec s.pub).2.2.2.2.2.2
    · split
      · exact Or.inl (handleBody_perm d _ pos)
      · exact Or.inl (handleBody_perm d _ pos)

/-- First concrete reading: origin fix with accuracy 10 m, no speed. -/
def r0 : RawReading := { latitude := 0, longitude := 0, accuracy := 10, speed := none }

/-- A second concrete reading far from the first, no speed. -/
def rMove : RawReading := { latitude := 10, longitude := 10, accuracy := 10, speed := none }

/-- A reading with unacceptable accuracy (500 m) reporting speed 0. -/
def pos500 : RawReading := { latitude := 0, longitude := 0, accuracy := 500, speed := some 0 }

/-- A well-formed stationary reading: good accuracy, reported speed 0. -/
def rStat : RawReading := { latitude := 1, longitude := 1, accuracy := 10, speed := some 0 }

/-- Hook state after feeding the very first reading `r0`. -/
def s1def : HookState := handlePosition distZero initialHook r0

/-- Hook state after additionally feeding `rMove` once. -/
def s2def : HookState := handlePosition distZero s1def rMove

/-- Hook state after feeding the identical reading `rMove` a second time. -/
def s3def : HookState := handlePosition distZero s2def rMove

lemma s1def_eq :
    s1def = { pub := pushState { latitude := 0, longitude := 0, accuracy := 10 },
              smoothed := some { latitude := 0, longitude := 0, accuracy := 10 },
              lastPushed := some { latitude := 0, longitude := 0, accuracy := 10 },
              timer := some STALENESS_TIMEOUT_MS, timerGen := 1, watchId := none,
              stableCount := 0 } := by
  norm_num [s1def, handlePosition, handleBody, initialHook, initialPublicState, clearFlags,
    smooth, shouldPushB, isStationary, RawReading.toGeoPosition, r0, distZero,
    EMA_ALPHA, MAX_ACCEPTABLE_ACCURACY, MIN_MOVEMENT_THRESHOLD, STATIONARY_SPEED_LIMIT]

lemma s2def_eq :
    s2def = { pub := pushState { latitude := 0, longitude := 0, accuracy := 10 },
              smoothed := some { latitude := 3 / 2, longitude := 3 / 2, accuracy := 10 },
              lastPushed := some { latitude := 0, longitude := 0, accuracy := 10 },
              timer := some STALENESS_TIMEOUT_MS, timerGen := 2, watchId := none,
              stableCount := 0 } := by
  norm_num [s2def, s1def_eq, handlePosition, handleBody, clearFlags, pushState,
    smooth, shouldPushB, isStationary, RawReading.toGeoPosition, rMove, distZero,
    EMA_ALPHA, MAX_ACCEPTABLE_ACCURACY, MIN_MOVEMENT_THRESHOLD, STATIONARY_SPEED_LIMIT]

lemma s3def_eq :
    s3def = { pub := pushState { latitude := 0, longitude := 0, accuracy := 10 },
              smoothed := some { latitude := 111 / 40, longitude := 111 / 40, accuracy := 10 },
              lastPushed := some { latitude := 0, longitude := 0, accuracy := 10 },
              timer := some STALENESS_TIMEOUT_MS, timerGen := 3, watchId := none,
              stableCount := 0 } := by
  norm_num [s3def, s2def_eq, handlePosition, handleBody, clearFlags, pushState,
    smooth, shouldPushB, isStationary, RawReading.toGeoPosition, rMove, distZero,
    EMA_ALPHA, MAX_ACCEPTABLE_ACCURACY, MIN_MOVEMENT_THRESHOLD, STATIONARY_SPEED_LIMIT]

/-- A reading is never classified stationary when its speed is absent,
negative, or at or above the stationary limit. -/
lemma isStationary_false_of_speed (pos : RawReading) (s : HookState)
    (hsp : pos.speed = none ∨
      ∀ v : ℚ, pos.speed = some v → v < 0 ∨ STATIONARY_SPEED_LIMIT ≤ v) :
    isStationary pos s = false := by
  unfold isStationary
  cases hv : pos.speed with
  | none => rfl
  | some v =>
    rcases hsp with h | h
    · rw [hv] at h
      cases h
    · rcases h v hv with hneg | hge
      · simp [not_le.mpr hneg]
      · simp [not_lt.mpr hge]

/-- C6: the position smoother returns the raw reading unchanged when no
previous smoothed position exists; otherwise each field is the convex
combination `alpha * new + (1 - alpha) * previous` with `alpha = 0.15`, so
smoothing prior `(10, 10, 10)` with raw `(20, 20, 20)` yields
`(11.5, 11.5, 11.5)`. -/
theorem c6_smoother_convex_combination :
    EMA_ALPHA = (0.15 : ℚ) ∧
    (∀ raw : GeoPosition, ∀ a : ℚ, smooth none raw a = raw) ∧
    (∀ p raw : GeoPosition, ∀ a : ℚ,
      smooth (some p) raw a =
        { latitude := a * raw.latitude + (1 - a) * p.latitude
          longitude := a * raw.longitude + (1 - a) * p.longitude
          accuracy := a * raw.accuracy + (1 - a) * p.accuracy }) ∧
    smooth (some { latitude := 10, longitude := 10, accuracy := 10 })
        { latitude := 20, longitude := 20, accuracy := 20 } EMA_ALPHA =
      { latitude := (11.5 : ℚ), longitude := (11.5 : ℚ), accuracy := (11.5 : ℚ) } := by
  refine ⟨by norm_num [EMA_ALPHA], fun raw a => rfl, fun p raw a => rfl, ?_⟩
  simp only [smooth, EMA_ALPHA, GeoPosition.mk.injEq]
  norm_num

/-- C8: a transient error (position unavailable or timeout) leaves the
permission state and the watch subscription unchanged; an error message is
surfaced exactly when no position has ever been published, and is not
surfaced once a position exists. -/
theorem c8_transient_error_policy (s : HookState) (code : GeoErrorCode)
    (h : code ≠ GeoErrorCode.permissionDenied) :
    (handleError s code).pub.permissionState = s.pub.permissionState ∧
    (handleError s code).watchId = s.watchId ∧
    (s.pub.latitude = none → (handleError s code).pub.error = some acquiringMessage) ∧
    (s.pub.latitude ≠ none → (handleError s code).pub.error = none) := by
  cases code with
  | permissionDenied => exact absurd rfl h
  | positionUnavailable =>
    refine ⟨rfl, rfl, fun hl => ?_, fun hl => ?_⟩
    · simp [handleError, hl]
    · simp [handleError, hl]
  | timeout =>
    refine ⟨rfl, rfl, fun hl => ?_, fun hl => ?_⟩
    · simp [handleError, hl]
    · simp [handleError, hl]

/-- C8 witness: instantiation at a state that already published a position
(timeout surfaces nothing) and at the initial state (position unavailable
surfaces the acquiring message). -/
theorem c8_transient_error_policy_witness :
    (handleError s1def GeoErrorCode.timeout).pub.error = none ∧
    (handleError initialHook GeoErrorCode.positionUnavailable).pub.error =
      some acquiringMessage := by
  constructor
  · exact (c8_transient_error_policy s1def GeoErrorCode.timeout (by decide)).2.2.2
      (by rw [s1def_eq]; simp [pushState])
  · exact (c8_transient_error_policy initialHook GeoErrorCode.positionUnavailable
      (by decide)).2.2.1 rfl

/-- C10: a transient error arriving while a position is already published
actively clears the public error message and the loading flag. -/
theorem c10_transient_error_clears_message (s : HookState) (code : GeoErrorCode)
    (h : code ≠ GeoErrorCode.permissionDenied) (q : ℚ)
    (hl : s.pub.latitude = some q) :
    (handleError s code).pub.error = none ∧
    (handleError s code).pub.loading = false := by
  cases code with
  | permissionDenied => exact absurd rfl h
  | positionUnavailable => constructor <;> simp [handleError, hl]
  | timeout => constructor <;> simp [handleError, hl]

/-- C10 witness: a timeout error at a state with a published position, and
with a staleness error message on display, clears that message. -/
theorem c10_transient_error_clears_message_witness :
    (handleError { s1def with pub := watchdogFire s1def.pub } GeoErrorCode.timeout).pub.error =
      none ∧
    (handleError { s1def with pub := watchdogFire s1def.pub } GeoErrorCode.timeout).pub.loading =
      false :=
  c10_transient_error_clears_message { s1def with pub := watchdogFire s1def.pub }
    GeoErrorCode.timeout (by decide) 0
    (by rw [s1def_eq]; simp [watchdogFire, pushState])

/-- C9: when the staleness watchdog fires (armed with the 30 second window),
it sets the stale flag and a non-empty error message, and leaves the
published coordinates, the accuracy, the permission state and the loading
flag unchanged. -/
theorem c9_watchdog_fire (dist : ℚ → ℚ → ℚ → ℚ → ℚ) (s : ControllerState)
    (h : s.hook.timer = some STALENESS_TIMEOUT_MS) :
    STALENESS_TIMEOUT_MS = 30000 ∧
    (controllerStep dist s GeoEvent.timerFire).hook.pub.stale = true ∧
    (controllerStep dist s GeoEvent.timerFire).hook.pub.error = some stalenessMessage ∧
    stalenessMessage ≠ "" ∧
    (controllerStep dist s GeoEvent.timerFire).hook.pub.latitude = s.hook.pub.latitude ∧
    (controllerStep dist s GeoEvent.timerFire).hook.pub.longitude = s.hook.pub.longitude ∧
    (controllerStep dist s GeoEvent.timerFire).hook.pub.accuracy = s.hook.pub.accuracy ∧
    (controllerStep dist s GeoEvent.timerFire).hook.pub.permissionState =
      s.hook.pub.permissionState ∧
    (controllerStep dist s GeoEvent.timerFire).hook.pub.loading = s.hook.pub.loading := by
  have hs : s.hook.timer.isSome = true := by rw [h]; rfl
  simp only [controllerStep, hs, if_true]
  exact ⟨rfl, rfl, rfl, by decide, rfl, rfl, rfl, rfl, rfl⟩

/-- Controller state whose staleness timer is armed, used to instantiate C9. -/
def cTimer : ControllerState :=
  { initialController with hook := { initialHook with timer := some STALENESS_TIMEOUT_MS } }

/-- C9 witness: firing the armed watchdog at a concrete state. -/
theorem c9_watchdog_fire_witness :
    (controllerStep distZero cTimer GeoEvent.timerFire).hook.pub.stale = true ∧
    (controllerStep distZero cTimer GeoEvent.timerFire).hook.pub.latitude =
      cTimer.hook.pub.latitude :=
  ⟨(c9_watchdog_fire distZero cTimer rfl).2.1,
   (c9_watchdog_fire distZero cTimer rfl).2.2.2.2.1⟩

/-- C5: a reading whose accuracy exceeds the 100 m ceiling while a smoothed
position exists is discarded with no state change at all (in particular no
watchdog rearm), while the very first reading is accepted regardless of its
accuracy: it becomes the smoothed position and rearms the watchdog. -/
theorem c5_accuracy_gate (dist : ℚ → ℚ → ℚ → ℚ → ℚ) (s : HookState) (pos : RawReading) :
    (s.smoothed.isSome = true → MAX_ACCEPTABLE_ACCURACY < pos.accuracy →
      handlePosition dist s pos = s) ∧
    (s.smoothed = none →
      (handlePosition dist s pos).smoothed = some pos.toGeoPosition ∧
      (handlePosition dist s pos).timerGen = s.timerGen + 1) := by
  constructor
  · intro hs hacc
    unfold handlePosition
    rw [if_pos ⟨hacc, hs⟩]
  · intro hs
    have hstat : isStationary pos s = false := by
      unfold isStationary
      cases hv : pos.speed with
      | none => rfl
      | some v => simp [hs]
    unfold handlePosition
    rw [if_neg (by simp [hs]), if_neg (by simp [hstat]), if_neg (by simp [hstat])]
    constructor
    · rw [handleBody_smoothed]
      show some (smooth s.smoothed pos.toGeoPosition EMA_ALPHA) = _
      rw [hs]
      rfl
    · rw [handleBody_timerGen]

/-- C5 witness: the 500 m reading is dropped without any change once a
baseline exists, and the same reading is accepted as the very first one. -/
theorem c5_accuracy_gate_witness :
    handlePosition distZero s1def pos500 = s1def ∧
    (handlePosition distZero initialHook pos500).smoothed = some pos500.toGeoPosition := by
  constructor
  · exact (c5_accuracy_gate distZero s1def pos500).1 (by rw [s1def_eq]; rfl)
      (by norm_num [pos500, MAX_ACCEPTABLE_ACCURACY])
  · exact ((c5_accuracy_gate distZero initialHook pos500).2 rfl).1

/-- Behaviour of the smoothing and publishing body for any stable count
update `k`: the publish decision splits on the movement threshold. -/
lemma movement_cases (dist : ℚ → ℚ → ℚ → ℚ → ℚ) (s : HookState) (pos : RawReading) (k : ℕ) :
    (shouldPushB dist s.lastPushed (smooth s.smoothed pos.toGeoPosition EMA_ALPHA) = true →
      (handleBody dist { s with stableCount := k } pos).pub =
        pushState (smooth s.smoothed pos.toGeoPosition EMA_ALPHA) ∧
      (handleBody dist { s with stableCount := k } pos).lastPushed =
        some (smooth s.smoothed pos.toGeoPosition EMA_ALPHA)) ∧
    (shouldPushB dist s.lastPushed (smooth s.smoothed pos.toGeoPosition EMA_ALPHA) = false →
      (handleBody dist { s with stableCount := k } pos).pub = clearFlags s.pub ∧
      (handleBody dist { s with stableCount := k } pos).lastPushed = s.lastPushed) := by
  constructor
  · intro hp
    exact handleBody_push dist { s with stableCount := k } pos hp
  · intro hp
    exact handleBody_noPush dist { s with stableCount := k } pos hp

/-- C3: for a reading that reaches the movement threshold gate, if nothing
was published yet or the distance from the published position to the new
smoothed position reaches 5 m, the exposed coordinates and accuracy are
replaced by the smoothed values in a single publish that also clears error,
loading and staleness and sets the permission state to granted; below the
threshold the exposed coordinates stay as they were while any outstanding
error, loading or staleness flags are still cleared. -/
theorem c3_movement_threshold_gate (dist : ℚ → ℚ → ℚ → ℚ → ℚ)
    (s : HookState) (pos : RawReading)
    (hacc : ¬(MAX_ACCEPTABLE_ACCURACY < pos.accuracy ∧ s.smoothed.isSome = true))
    (hsnap : ¬(isStationary pos s = true ∧ SNAP_AFTER_STABLE_COUNT ≤ s.stableCount + 1)) :
    (shouldPushB dist s.lastPushed (smooth s.smoothed pos.toGeoPosition EMA_ALPHA) = true →
      (handlePosition dist s pos).pub =
        pushState (smooth s.smoothed pos.toGeoPosition EMA_ALPHA) ∧
      (handlePosition dist s pos).lastPushed =
        some (smooth s.smoothed pos.toGeoPosition EMA_ALPHA)) ∧
    (shouldPushB dist s.lastPushed (smooth s.smoothed pos.toGeoPosition EMA_ALPHA) = false →
      (handlePosition dist s pos).pub.latitude = s.pub.latitude ∧
      (handlePosition dist s pos).pub.longitude = s.pub.longitude ∧
      (handlePosition dist s pos).pub.accuracy = s.pub.accuracy ∧
      (handlePosition dist s pos).pub.error = none ∧
      (handlePosition dist s pos).pub.loading = false ∧
      (handlePosition dist s pos).pub.stale = false ∧
      (handlePosition dist s pos).pub.permissionState = PermissionState.granted ∧
      (handlePosition dist s pos).lastPushed = s.lastPushed) := by
  have key : ∀ k : ℕ,
      (shouldPushB dist s.lastPushed (smooth s.smoothed pos.toGeoPosition EMA_ALPHA) = true →
        (handleBody dist { s with stableCount := k } pos).pub =
          pushState (smooth s.smoothed pos.toGeoPosition EMA_ALPHA) ∧
        (handleBody dist { s with stableCount := k } pos).lastPushed =
          some (smooth s.smoothed pos.toGeoPosition EMA_ALPHA)) ∧
      (shouldPushB dist s.lastPushed (smooth s.smoothed pos.toGeoPosition EMA_ALPHA) = false →
        (handleBody dist { s with stableCount := k } pos).pub.latitude = s.pub.latitude ∧
        (handleBody dist { s with stableCount := k } pos).pub.longitude = s.pub.longitude ∧
        (handleBody dist { s with stableCount := k } pos).pub.accuracy = s.pub.accuracy ∧
        (handleBody dist { s with stableCount := k } pos).pub.error = none ∧
        (handleBody dist { s with stableCount := k } pos).pub.loading = false ∧
        (handleBody dist { s with stableCount := k } pos).pub.stale = false ∧
        (handleBody dist { s with stableCount := k } pos).pub.permissionState =
          PermissionState.granted ∧
        (handleBody dist { s with stableCount := k } pos).lastPushed = s.lastPushed) := by
    intro k
    obtain ⟨h1, h2⟩ := movement_cases dist s pos k
    refine ⟨h1, fun hp => ?_⟩
    obtain ⟨hpub, hlast⟩ := h2 hp
    obtain ⟨f1, f2, f3, f4, f5, f6, f7⟩ := clearFlags_spec s.pub
    rw [hpub]
    exact ⟨f1, f2, f3, f4, f5, f6, f7, hlast⟩
  unfold handlePosition
  rw [if_neg hacc, if_neg hsnap]
  by_cases hstat : isStationary pos s = true
  · rw [if_pos hstat]
    exact key (s.stableCount + 1)
  · rw [if_neg hstat]
    exact key 0

/-- C3 witness: feeding `rMove` over the baseline `s1def` under the
degenerate distance (below the threshold) leaves the exposed coordinates
at the previously pushed values with all flags clear. -/
theorem c3_movement_threshold_gate_witness :
    ¬(MAX_ACCEPTABLE_ACCURACY < rMove.accuracy ∧ s1def.smoothed.isSome = true) ∧
    (handlePosition distZero s1def rMove).pub.latitude = s1def.pub.latitude ∧
    (handlePosition distZero s1def rMove).pub.error = none ∧
    (handlePosition distZero s1def rMove).lastPushed = s1def.lastPushed := by
  have hacc : ¬(MAX_ACCEPTABLE_ACCURACY < rMove.accuracy ∧ s1def.smoothed.isSome = true) := by
    rw [s1def_eq]
    norm_num [rMove, MAX_ACCEPTABLE_ACCURACY]
  have hsnap : ¬(isStationary rMove s1def = true ∧
      SNAP_AFTER_STABLE_COUNT ≤ s1def.stableCount + 1) := by
    rw [s1def_eq]
    norm_num [isStationary, rMove]
  have hp : shouldPushB distZero s1def.lastPushed
      (smooth s1def.smoothed rMove.toGeoPosition EMA_ALPHA) = false := by
    rw [s1def_eq]
    norm_num [shouldPushB, distZero, MIN_MOVEMENT_THRESHOLD]
  obtain ⟨g1, g2, g3, g4, g5, g6, g7, g8⟩ :=
    (c3_movement_threshold_gate distZero s1def rMove hacc hsnap).2 hp
  exact ⟨hacc, g1, g4, g8⟩

/-- C4 counterexample: after a baseline exists, the reading `pos500` reports
the non-negative speed 0 (below 0.3), yet its stable count is not
incremented, because the accuracy gate discards the 500 m reading before the
speed gate runs; the whole state is returned unchanged. -/
theorem c4_counterexample_accuracy_discard :
    s1def.smoothed.isSome = true ∧
    s1def.stableCount = 0 ∧
    pos500.speed = some 0 ∧
    (0 : ℚ) ≤ 0 ∧ (0 : ℚ) < STATIONARY_SPEED_LIMIT ∧
    handlePosition distZero s1def pos500 = s1def ∧
    (handlePosition distZero s1def pos500).stableCount = 0 := by
  refine ⟨by rw [s1def_eq]; rfl, by rw [s1def_eq], rfl, le_refl 0,
    by norm_num [STATIONARY_SPEED_LIMIT], ?_, ?_⟩
  · rw [s1def_eq]
    norm_num [handlePosition, isStationary, pos500, MAX_ACCEPTABLE_ACCURACY, pushState]
  · rw [s1def_eq]
    norm_num [handlePosition, isStationary, pos500, MAX_ACCEPTABLE_ACCURACY, pushState]

/-- C4 amended: for readings that pass the accuracy gate (accuracy at most
100 m) arriving after a baseline smoothed position exists, a stationary
reading (non-negative speed below 0.3) increments the stable count; once the
incremented count reaches 3, the reading leaves the smoothed and published
positions unchanged while rearming the watchdog and clearing the stale,
loading and error flags with permission granted; and a reading with absent
speed or speed at or above 0.3 resets the count to zero and is processed
normally by the remaining smoothing and publishing gates. -/
theorem c4_stationary_snap_amended (dist : ℚ → ℚ → ℚ → ℚ → ℚ)
    (s : HookState) (pos : RawReading)
    (hbase : s.smoothed.isSome = true)
    (hacc : pos.accuracy ≤ MAX_ACCEPTABLE_ACCURACY) :
    (isStationary pos s = true →
      (handlePosition dist s pos).stableCount = s.stableCount + 1) ∧
    (isStationary pos s = true → SNAP_AFTER_STABLE_COUNT ≤ s.stableCount + 1 →
      (handlePosition dist s pos).smoothed = s.smoothed ∧
      (handlePosition dist s pos).lastPushed = s.lastPushed ∧
      (handlePosition dist s pos).timer = some STALENESS_TIMEOUT_MS ∧
      (handlePosition dist s pos).timerGen = s.timerGen + 1 ∧
      (handlePosition dist s pos).pub.stale = false ∧
      (handlePosition dist s pos).pub.loading = false ∧
      (handlePosition dist s pos).pub.error = none ∧
      (handlePosition dist s pos).pub.permissionState = PermissionState.granted) ∧
    ((pos.speed = none ∨ ∀ v : ℚ, pos.speed = some v → STATIONARY_SPEED_LIMIT ≤ v) →
      (handlePosition dist s pos).stableCount = 0 ∧
      handlePosition dist s pos = handleBody dist { s with stableCount := 0 } pos ∧
      (handlePosition dist s pos).smoothed =
        some (smooth s.smoothed pos.toGeoPosition EMA_ALPHA)) := by
  have hgate : ¬(MAX_ACCEPTABLE_ACCURACY < pos.accuracy ∧ s.smoothed.isSome = true) := by
    intro hc
    exact absurd hacc (not_le.mpr hc.1)
  refine ⟨?_, ?_, ?_⟩
  · intro hstat
    unfold handlePosition
    rw [if_neg hgate]
    by_cases hsnap : SNAP_AFTER_STABLE_COUNT ≤ s.stableCount + 1
    · rw [if_pos ⟨hstat, hsnap⟩]
    · rw [if_neg (by simp [hsnap]), if_pos hstat, handleBody_stableCount]
  · intro hstat hsnap
    unfold handlePosition
    rw [if_neg hgate, if_pos ⟨hstat, hsnap⟩]
    obtain ⟨f1, f2, f3, f4, f5, f6, f7⟩ := clearFlags_spec s.pub
    exact ⟨rfl, rfl, rfl, rfl, f6, f5, f4, f7⟩
  · intro hsp
    have hstat : isStationary pos s = false :=
      isStationary_false_of_speed pos s
        (hsp.imp_right fun h v hv => Or.inr (h v hv))
    unfold handlePosition
    rw [if_neg hgate, if_neg (by simp [hstat]), if_neg (by simp [hstat])]
    exact ⟨by rw [handleBody_stableCount], rfl, by rw [handleBody_smoothed]⟩

/-- C4 witness: the stationary reading `rStat` over the baseline `s1def`
bumps the stable count, and the fast reading `rMove` resets it while still
being smoothed. -/
theorem c4_stationary_snap_amended_witness :
    s1def.smoothed.isSome = true ∧ rStat.accuracy ≤ MAX_ACCEPTABLE_ACCURACY ∧
    (handlePosition distZero s1def rStat).stableCount = s1def.stableCount + 1 ∧
    (handlePosition distZero s1def rMove).stableCount = 0 := by
  have hbase : s1def.smoothed.isSome = true := by rw [s1def_eq]; rfl
  have h1 : (handlePosition distZero s1def rStat).stableCount = s1def.stableCount + 1 :=
    (c4_stationary_snap_amended distZero s1def rStat hbase
      (by norm_num [rStat, MAX_ACCEPTABLE_ACCURACY])).1
      (by rw [s1def_eq]; norm_num [isStationary, rStat, STATIONARY_SPEED_LIMIT])
  have h2 : (handlePosition distZero s1def rMove).stableCount = 0 :=
    ((c4_stationary_snap_amended distZero s1def rMove hbase
      (by norm_num [rMove, MAX_ACCEPTABLE_ACCURACY])).2.2 (Or.inl rfl)).1
  exact ⟨hbase, by norm_num [rStat, MAX_ACCEPTABLE_ACCURACY], h1, h2⟩

/-- C1 counterexample: the reading `rMove` is accepted at `s1def` (it
reaches smoothing and rearms the watchdog, as the generation bump shows),
yet feeding the identical reading a second time moves the smoothed position
again — from `(1.5, 1.5)` to `(2.775, 2.775)` — because the exponential
moving average only fixes readings that already equal the accumulator.  The
stored smoothed position is one of the quantities the claim asserts
unchanged, and its update does not consult the distance function. -/
theorem c1_counterexample_not_idempotent :
    s2def.timerGen = s1def.timerGen + 1 ∧
    s2def.smoothed = some { latitude := 3 / 2, longitude := 3 / 2, accuracy := 10 } ∧
    s3def.smoothed = some { latitude := 111 / 40, longitude := 111 / 40, accuracy := 10 } ∧
    s3def.smoothed ≠ s2def.smoothed := by
  rw [s1def_eq, s2def_eq, s3def_eq]
  norm_num [GeoPosition.mk.injEq]

/-- C1 amended: re-feeding an accepted reading changes nothing beyond
rearming the watchdog only when the reading is a fixed point of the
smoother — its projection already equals the stored smoothed position, as
happens for the baseline-establishing first reading — and it is not
classified stationary, the stable count is zero, the movement gate again
declines to publish, and the public flags are already clear (all of which
hold immediately after such a reading was accepted); in general the
smoother moves the stored position strictly closer to a repeated reading,
so the pipeline is not idempotent for repeated identical readings. -/
theorem c1_idempotent_only_at_fixpoint (dist : ℚ → ℚ → ℚ → ℚ → ℚ)
    (s : HookState) (pos : RawReading)
    (hfix : s.smoothed = some pos.toGeoPosition)
    (hsp : pos.speed = none ∨
      ∀ v : ℚ, pos.speed = some v → v < 0 ∨ STATIONARY_SPEED_LIMIT ≤ v)
    (hcnt : s.stableCount = 0)
    (hpush : shouldPushB dist s.lastPushed pos.toGeoPosition = false)
    (he : s.pub.error = none) (hl : s.pub.loading = false)
    (hst : s.pub.stale = false)
    (hpm : s.pub.permissionState = PermissionState.granted) :
    (handlePosition dist s pos).smoothed = s.smoothed ∧
    (handlePosition dist s pos).lastPushed = s.lastPushed ∧
    (handlePosition dist s pos).stableCount = s.stableCount ∧
    (handlePosition dist s pos).pub = s.pub := by
  by_cases hacc : MAX_ACCEPTABLE_ACCURACY < pos.accuracy ∧ s.smoothed.isSome = true
  · unfold handlePosition
    rw [if_pos hacc]
    exact ⟨rfl, rfl, rfl, rfl⟩
  · have hstat : isStationary pos s = false := isStationary_false_of_speed pos s hsp
    unfold handlePosition
    rw [if_neg hacc, if_neg (by simp [hstat]), if_neg (by simp [hstat])]
    have hs0 : ({ s with stableCount := 0 } : HookState) = s := by
      cases s
      simp_all
    rw [hs0]
    have hsm : smooth s.smoothed pos.toGeoPosition EMA_ALPHA = pos.toGeoPosition := by
      rw [hfix, smooth_self]
    have hp : shouldPushB dist s.lastPushed
        (smooth s.smoothed pos.toGeoPosition EMA_ALPHA) = false := by
      rw [hsm]
      exact hpush
    obtain ⟨hpub, hlast⟩ := handleBody_noPush dist s pos hp
    refine ⟨?_, hlast, ?_, ?_⟩
    · rw [handleBody_smoothed, hsm, hfix]
    · rw [handleBody_stableCount]
    · rw [hpub, clearFlags_clean s.pub he hl hst hpm]

/-- C1 witness: re-feeding the baseline-establishing first reading `r0`
changes no pipeline state. -/
theorem c1_idempotent_only_at_fixpoint_witness :
    s1def.smoothed = some r0.toGeoPosition ∧
    (handlePosition distZero s1def r0).smoothed = s1def.smoothed ∧
    (handlePosition distZero s1def r0).lastPushed = s1def.lastPushed ∧
    (handlePosition distZero s1def r0).pub = s1def.pub := by
  have hfix : s1def.smoothed = some r0.toGeoPosition := by
    rw [s1def_eq]
    norm_num [r0, RawReading.toGeoPosition]
  obtain ⟨g1, g2, g3, g4⟩ := c1_idempotent_only_at_fixpoint distZero s1def r0 hfix
    (Or.inl rfl)
    (by rw [s1def_eq])
    (by rw [s1def_eq]; norm_num [shouldPushB, distZero, r0,
      RawReading.toGeoPosition, MIN_MOVEMENT_THRESHOLD])
    (by rw [s1def_eq]; rfl) (by rw [s1def_eq]; rfl) (by rw [s1def_eq]; rfl)
    (by rw [s1def_eq]; rfl)
  exact ⟨hfix, g1, g2, g4⟩

/-- Controller state after the permission query resolved with `prompt`:
the watch is running and the change listener is registered. -/
def cPrompt : ControllerState :=
  controllerStep distZero initialController (GeoEvent.queryResult BrowserPerm.prompt)

/-- Controller state after tearing `cPrompt` down. -/
def cClean : ControllerState := controllerStep distZero cPrompt GeoEvent.cleanup

/-- C2 counterexample: the cleanup cancels the subscription and clears the
timer, but the permission change listener stays registered, and a change to
denied delivered after teardown still updates the public state, setting the
revoked-access error and the denied permission state. -/
theorem c2_counterexample_listener_survives :
    cClean.cancelled = true ∧
    cClean.hook.watchId = none ∧
    cClean.hook.timer = none ∧
    cClean.listenerRegistered = true ∧
    (controllerStep distZero cClean (GeoEvent.permissionChange BrowserPerm.denied)).hook.pub ≠
      cClean.hook.pub ∧
    (controllerStep distZero cClean
        (GeoEvent.permissionChange BrowserPerm.denied)).hook.pub.error =
      some revokedMessage := by
  refine ⟨rfl, rfl, rfl, rfl, ?_, rfl⟩
  intro h
  have he := congrArg PublicState.error h
  simp [cClean, cPrompt, controllerStep, startWatching, initialController,
    initialHook, initialPublicState] at he

/-- C2 amended: teardown always cancels the subscription and clears the
watchdog timer, and after it no event restarts the watch, rearms the timer,
or changes the public state — with the single exception that the
permission change listener is not discarded, so a change notification to
denied arriving after teardown still updates the public state (while a
re-granted permission does not restart the cancelled subscription). -/
theorem c2_teardown_amended (dist : ℚ → ℚ → ℚ → ℚ → ℚ)
    (s : ControllerState) (e : GeoEvent) :
    (controllerStep dist s GeoEvent.cleanup).cancelled = true ∧
    (controllerStep dist s GeoEvent.cleanup).hook.watchId = none ∧
    (controllerStep dist s GeoEvent.cleanup).hook.timer = none ∧
    (controllerStep dist (controllerStep dist s GeoEvent.cleanup) e).hook.watchId = none ∧
    (controllerStep dist (controllerStep dist s GeoEvent.cleanup) e).hook.timer = none ∧
    ((controllerStep dist (controllerStep dist s GeoEvent.cleanup) e).hook.pub =
        (controllerStep dist s GeoEvent.cleanup).hook.pub ∨
      e = GeoEvent.permissionChange BrowserPerm.denied) := by
  refine ⟨rfl, rfl, rfl, ?_⟩
  cases e with
  | queryResult st =>
    by_cases hq : s.queryDone = true
    · simp [controllerStep, hq]
    · cases st <;> simp [controllerStep, hq]
  | queryFailed =>
    by_cases hq : s.queryDone = true
    · simp [controllerStep, hq]
    · simp [controllerStep, hq]
  | position pos => simp [controllerStep]
  | geoError code => simp [controllerStep]
  | permissionChange st =>
    by_cases hl : s.listenerRegistered = true
    · cases st <;> simp [controllerStep, startWatching, hl]
    · simp [controllerStep, hl]
  | timerFire => simp [controllerStep]
  | cleanup => simp [controllerStep]

lemma startWatching_pub (s : ControllerState) :
    (startWatching s).hook.pub = s.hook.pub := by
  unfold startWatching
  split <;> rfl

lemma startWatching_queryDone (s : ControllerState) :
    (startWatching s).queryDone = s.queryDone := by
  unfold startWatching
  split <;> rfl

lemma startWatching_resultState (s : ControllerState) :
    (startWatching s).resultState = s.resultState := by
  unfold startWatching
  split <;> rfl

/-- The inductive invariant of the permission and subscription controller:
whenever the exposed permission state reads denied, either no watch handle
exists, or the browser permission observed last is no longer denied (the
re-grant window); and before the permission query settles nothing is
watching, no listener is registered and the state cannot read denied. -/
def ControllerInv (s : ControllerState) : Prop :=
  (s.hook.pub.permissionState = PermissionState.denied →
    s.hook.watchId = none ∨ s.resultState ≠ some BrowserPerm.denied) ∧
  (s.queryDone = false →
    s.hook.watchId = none ∧ s.listenerRegistered = false ∧
    s.hook.pub.permissionState ≠ PermissionState.denied)

lemma controllerInv_init : ControllerInv initialController := by
  constructor
  · intro hp
    simp [initialController, initialHook, initialPublicState] at hp
  · intro _
    refine ⟨rfl, rfl, ?_⟩
    simp [initialController, initialHook, initialPublicState]

lemma controllerInv_step (dist : ℚ → ℚ → ℚ → ℚ → ℚ) (s : ControllerState) (e : GeoEvent)
    (h : ControllerInv s) : ControllerInv (controllerStep dist s e) := by
  obtain ⟨h1, h2⟩ := h
  cases e with
  | queryResult st =>
    by_cases hq : s.queryDone = true
    · simp only [controllerStep, if_pos hq]
      exact ⟨h1, h2⟩
    · obtain ⟨hw, hlf, hperm⟩ := h2 (by simpa using hq)
      by_cases hc : s.cancelled = true
      · simp only [controllerStep, if_neg hq, if_pos hc]
        exact ⟨fun hp => absurd hp hperm, fun hq' => by simp at hq'⟩
      · by_cases hst : st = BrowserPerm.denied
        · simp only [controllerStep, if_neg hq, if_neg hc, if_pos hst]
          exact ⟨fun _ => Or.inl hw, fun hq' => by simp at hq'⟩
        · simp only [controllerStep, if_neg hq, if_neg hc, if_neg hst]
          constructor
          · intro hp
            rw [startWatching_pub] at hp
            have hp2 : st.toPermissionState = PermissionState.denied := hp
            cases st with
            | denied => exact absurd rfl hst
            | prompt => simp [BrowserPerm.toPermissionState] at hp2
            | granted => simp [BrowserPerm.toPermissionState] at hp2
          · intro hq'
            rw [startWatching_queryDone] at hq'
            simp at hq'
  | queryFailed =>
    by_cases hq : s.queryDone = true
    · simp only [controllerStep, if_pos hq]
      exact ⟨h1, h2⟩
    · obtain ⟨hw, hlf, hperm⟩ := h2 (by simpa using hq)
      by_cases hc : s.cancelled = true
      · simp only [controllerStep, if_neg hq, if_pos hc]
        exact ⟨fun hp => absurd hp hperm, fun hq' => by simp at hq'⟩
      · simp only [controllerStep, if_neg hq, if_neg hc]
        constructor
        · intro hp
          rw [startWatching_pub] at hp
          exact absurd hp hperm
        · intro hq'
          rw [startWatching_queryDone] at hq'
          simp at hq'
  | position pos =>
    by_cases hwa : s.hook.watchId.isSome = true
    · simp only [controllerStep, if_pos hwa]
      constructor
      · intro hp
        have hp' : (handlePosition dist s.hook pos).pub.permissionState =
            PermissionState.denied := hp
        rcases handlePosition_perm_or dist s.hook pos with hg | heq
        · rw [hg] at hp'
          exact absurd hp' (by simp)
        · rw [heq] at hp'
          have goal : (handlePosition dist s.hook pos).watchId = none ∨
              s.resultState ≠ some BrowserPerm.denied := by
            rw [handlePosition_watchId]
            exact h1 hp'
          exact goal
      · intro hq'
        obtain ⟨hw, hlf, hperm⟩ := h2 hq'
        rw [hw] at hwa
        simp at hwa
    · simp only [controllerStep, if_neg hwa]
      exact ⟨h1, h2⟩
  | geoError code =>
    by_cases hwa : s.hook.watchId.isSome = true
    · simp only [controllerStep, if_pos hwa]
      cases code with
      | permissionDenied =>
        constructor
        · intro _
          exact Or.inl rfl
        · intro hq'
          obtain ⟨hw, hlf, hperm⟩ := h2 hq'
          rw [hw] at hwa
          simp at hwa
      | positionUnavailable =>
        constructor
        · intro hp
          exact h1 hp
        · intro hq'
          obtain ⟨hw, hlf, hperm⟩ := h2 hq'
          rw [hw] at hwa
          simp at hwa
      | timeout =>
        constructor
        · intro hp
          exact h1 hp
        · intro hq'
          obtain ⟨hw, hlf, hperm⟩ := h2 hq'
          rw [hw] at hwa
          simp at hwa
    · simp only [controllerStep, if_neg hwa]
      exact ⟨h1, h2⟩
  | permissionChange st =>
    by_cases hl : s.listenerRegistered = true
    · cases st with
      | denied =>
        simp only [controllerStep, if_pos hl, if_pos rfl]
        constructor
        · intro _
          exact Or.inl rfl
        · intro hq'
          obtain ⟨_, hlf, _⟩ := h2 hq'
          rw [hlf] at hl
          simp at hl
      | granted =>
        simp only [controllerStep, if_pos hl]
        rw [if_neg (by simp)]
        by_cases hwn : s.hook.watchId = none
        · rw [if_pos (And.intro (by trivial) hwn)]
          constructor
          · intro _
            refine Or.inr ?_
            rw [startWatching_resultState]
            simp
          · intro hq'
            rw [startWatching_queryDone] at hq'
            obtain ⟨_, hlf, _⟩ := h2 hq'
            rw [hlf] at hl
            simp at hl
        · rw [if_neg (by simp [hwn])]
          constructor
          · intro _
            exact Or.inr (by simp)
          · intro hq'
            obtain ⟨_, hlf, _⟩ := h2 hq'
            rw [hlf] at hl
            simp at hl
      | prompt =>
        simp only [controllerStep, if_pos hl]
        rw [if_neg (by simp), if_neg (by simp)]
        constructor
        · intro _
          exact Or.inr (by simp)
        · intro hq'
          obtain ⟨_, hlf, _⟩ := h2 hq'
          rw [hlf] at hl
          simp at hl
    · simp only [controllerStep, if_neg hl]
      exact ⟨h1, h2⟩
  | timerFire =>
    by_cases ht : s.hook.timer.isSome = true
    · simp only [controllerStep, if_pos ht]
      constructor
      · intro hp
        exact h1 hp
      · intro hq'
        obtain ⟨hw, hlf, hperm⟩ := h2 hq'
        exact ⟨hw, hlf, hperm⟩
    · simp only [controllerStep, if_neg ht]
      exact ⟨h1, h2⟩
  | cleanup =>
    constructor
    · intro _
      exact Or.inl rfl
    · intro hq'
      obtain ⟨hw, hlf, hperm⟩ := h2 hq'
      exact ⟨rfl, hlf, hperm⟩

lemma reachable_inv (dist : ℚ → ℚ → ℚ → ℚ → ℚ) (s : ControllerState)
    (h : Reachable dist s) : ControllerInv s := by
  induction h with
  | init => exact controllerInv_init
  | next s e h ih => exact controllerInv_step dist s e ih

/-- Reachable controller state violating the denied-implies-no-watch claim:
the query resolved prompt (watch started, listener registered), the
subscription then reported a permission denial (state denied, watch
cleared), and a later change notification to granted restarted the watch
without updating the exposed permission state. -/
def cBad : ControllerState :=
  controllerStep distZero
    (controllerStep distZero
      (controllerStep distZero initialController (GeoEvent.queryResult BrowserPerm.prompt))
      (GeoEvent.geoError GeoErrorCode.permissionDenied))
    (GeoEvent.permissionChange BrowserPerm.granted)

/-- C7 counterexample: `cBad` is reachable, its exposed permission state is
denied, and a watch handle exists — the re-grant listener restarts the
subscription without touching the exposed permission state, which is
updated to granted only by the next reading or error. -/
theorem c7_counterexample_denied_with_watch :
    Reachable distZero cBad ∧
    cBad.hook.pub.permissionState = PermissionState.denied ∧
    cBad.hook.watchId = some 1 := by
  refine ⟨?_, ?_, ?_⟩
  · exact Reachable.next _ _ (Reachable.next _ _ (Reachable.next _ _ Reachable.init))
  · simp [cBad, controllerStep, startWatching, initialController, initialHook,
      initialPublicState, handleError, BrowserPerm.toPermissionState]
  · simp [cBad, controllerStep, startWatching, initialController, initialHook,
      initialPublicState, handleError, BrowserPerm.toPermissionState]

/-- C7 amended: in every reachable controller state, an exposed permission
state of denied implies that no watch handle exists or that the browser
permission observed last by the controller is no longer denied — the only
exception to the claimed invariant is the window after a re-grant
notification restarted the subscription and before the exposed state is
refreshed by the next callback. -/
theorem c7_denied_invariant_amended (dist : ℚ → ℚ → ℚ → ℚ → ℚ)
    (s : ControllerState) (h : Reachable dist s)
    (hp : s.hook.pub.permissionState = PermissionState.denied) :
    s.hook.watchId = none ∨ s.resultState ≠ some BrowserPerm.denied :=
  (reachable_inv dist s h).1 hp

/-- Reachable controller state in which the permission query resolved with
an immediate denial. -/
def cDenied : ControllerState :=
  controllerStep distZero initialController (GeoEvent.queryResult BrowserPerm.denied)

/-- C7 witness: the amended invariant applied to the immediately-denied
reachable state. -/
theorem c7_denied_invariant_amended_witness :
    cDenied.hook.pub.permissionState = PermissionState.denied ∧
    (cDenied.hook.watchId = none ∨ cDenied.resultState ≠ some BrowserPerm.denied) := by
  have hp : cDenied.hook.pub.permissionState = PermissionState.denied := by
    simp [cDenied, controllerStep, initialController, initialHook, initialPublicState]
  exact ⟨hp, c7_denied_invariant_amended distZero cDenied
    (Reachable.next _ _ Reachable.init) hp⟩
